import Mathlib

/-!
Verification of the Button component (src/src/Components/Button.jsx).

The component is a pure, stateless transformation from a configuration
(variant, size, fullWidth, loading, disabled, leftIcon, rightIcon,
children, className, type, and arbitrary passthrough attributes) to a
description of one rendered element: its style-class string, its
disabled flag, its type, and an ordered list of content slots.

We embed that transformation shallowly:
  - the two style lookup objects become association lists
    (`VARIANT_STYLES`, `SIZE_STYLES`), property access becomes
    `List.lookup` (absent key = `none`, mirroring `undefined`);
  - `classes.filter(Boolean).join(" ")` becomes `filterBoolean`
    followed by `joinSpace` (JS `Array.join(" ")` semantics);
  - the JSX child expressions become `composedContent`, a list of
    slots, where a conjunct `x && <el>` contributes a slot iff `x`
    is truthy (for icons: present, i.e. `some`);
  - the props-spread element assembly for passthrough attributes is
    modelled separately at an untyped level (`RawProps`, `Value`)
    with JSX attribute-merge semantics (a later occurrence of an
    attribute key overrides an earlier one).
-/

namespace Button

/-- `VARIANT_STYLES` object from Button.jsx, as an association list. -/
def VARIANT_STYLES : List (String × String) :=
  [("primary",
    "bg-blue-600 text-white hover:bg-blue-700 focus:ring-blue-500 active:bg-blue-800"),
   ("secondary",
    "bg-gray-600 text-white hover:bg-gray-700 focus:ring-gray-500 active:bg-gray-800"),
   ("success",
    "bg-green-600 text-white hover:bg-green-700 focus:ring-green-500 active:bg-green-800"),
   ("danger",
    "bg-red-600 text-white hover:bg-red-700 focus:ring-red-500 active:bg-red-800"),
   ("warning",
    "bg-yellow-500 text-white hover:bg-yellow-600 focus:ring-yellow-400 active:bg-yellow-700"),
   ("info",
    "bg-cyan-600 text-white hover:bg-cyan-700 focus:ring-cyan-500 active:bg-cyan-800"),
   ("ghost",
    "bg-transparent border-2 border-gray-300 text-gray-700 hover:bg-gray-100 focus:ring-gray-500 active:bg-gray-200"),
   ("link",
    "bg-transparent text-blue-600 hover:text-blue-800 hover:underline focus:ring-blue-500 p-0"),
   ("outline",
    "bg-transparent border-2 border-blue-600 text-blue-600 hover:bg-blue-50 focus:ring-blue-500 active:bg-blue-100")]

/-- `SIZE_STYLES` object from Button.jsx, as an association list. -/
def SIZE_STYLES : List (String × String) :=
  [("xs", "px-2 py-1 text-xs gap-1"),
   ("sm", "px-3 py-1.5 text-sm gap-1.5"),
   ("md", "px-4 py-2 text-base gap-2"),
   ("lg", "px-6 py-3 text-lg gap-2.5"),
   ("xl", "px-8 py-4 text-xl gap-3")]

/-- `BASE_STYLES` constant from Button.jsx. -/
def BASE_STYLES : String :=
  "inline-flex items-center justify-center font-medium rounded-lg transition-all duration-200 focus:outline-none focus:ring-2 focus:ring-offset-2 disabled:opacity-50 disabled:cursor-not-allowed"

/-- `VARIANT_STYLES[variant]`: JS property access, `undefined` = `none`. -/
def variantStyles (variant : String) : Option String :=
  VARIANT_STYLES.lookup variant

/-- `SIZE_STYLES[size]`: JS property access, `undefined` = `none`. -/
def sizeStyles (size : String) : Option String :=
  SIZE_STYLES.lookup size

/-- JS `Array.prototype.join(" ")` on a list of strings. -/
def joinSpace : List String → String
  | [] => ""
  | [s] => s
  | s :: rest => s ++ " " ++ joinSpace rest

/-- The five-element `classes` array built inside `buttonClassName`:
`[BASE_STYLES, VARIANT_STYLES[variant], SIZE_STYLES[size],
fullWidth ? "w-full" : "", className]`, with `none` for `undefined`. -/
def classList (variant size : String) (fullWidth : Bool) (className : String) :
    List (Option String) :=
  [some BASE_STYLES,
   variantStyles variant,
   sizeStyles size,
   some (if fullWidth then "w-full" else ""),
   some className]

/-- JS `classes.filter(Boolean)`: drops `undefined` and the empty string
(the only falsy values that can occur in the `classes` array). -/
def filterBoolean (l : List (Option String)) : List String :=
  l.filterMap (fun o =>
    match o with
    | none => none
    | some s => if s = "" then none else some s)

/-- The memoized `buttonClassName` computation:
`classes.filter(Boolean).join(" ")`. -/
def buttonClassName (variant size : String) (fullWidth : Bool) (className : String) :
    String :=
  joinSpace (filterBoolean (classList variant size fullWidth className))

/-- The memoized `isDisabled` computation: `disabled || loading`. -/
def isDisabled (disabled loading : Bool) : Bool :=
  disabled || loading

/-- One rendered child slot of the button element. `α` is the opaque
type of caller-supplied renderable content (icons, children). -/
inductive Slot (α : Type) where
  | spinner : Slot α
  | leftIcon (c : α) : Slot α
  | childrenSlot (c : α) : Slot α
  | rightIcon (c : α) : Slot α
deriving DecidableEq, Repr

/-- The JSX child list of the `<button>` element:
`{loading && <Spinner />}`, `{!loading && leftIcon && <span>{leftIcon}</span>}`,
`<span>{children}</span>`, `{!loading && rightIcon && <span>{rightIcon}</span>}`.
A falsy conjunct (`false`, `null`) contributes no slot; absent icons are
`none` (the `null` default). -/
def composedContent {α : Type} (loading : Bool) (leftIcon rightIcon : Option α)
    (children : α) : List (Slot α) :=
  (if loading then [Slot.spinner] else []) ++
  (if loading then [] else
    match leftIcon with
    | some c => [Slot.leftIcon c]
    | none => []) ++
  [Slot.childrenSlot children] ++
  (if loading then [] else
    match rightIcon with
    | some c => [Slot.rightIcon c]
    | none => [])

/-- `true` on the icon slots, `false` on spinner and children slots. -/
def isIconSlot {α : Type} : Slot α → Bool
  | Slot.leftIcon _ => true
  | Slot.rightIcon _ => true
  | _ => false

/-- The caller-supplied props of one invocation, before defaulting:
`none` in an `Option` field means the caller omitted that prop
(JS `undefined`), so the default parameter value applies. For the icon
fields a supplied value may itself be `null`, hence `Option (Option α)`. -/
structure ButtonProps (α : Type) where
  variant : Option String
  size : Option String
  fullWidth : Option Bool
  loading : Option Bool
  disabled : Option Bool
  leftIcon : Option (Option α)
  rightIcon : Option (Option α)
  children : α
  className : Option String
  type : Option String

/-- The element description the component returns: the `<button>`
type attribute, resolved class string, resolved disabled flag, and
ordered child slots. -/
structure ButtonElement (α : Type) where
  type : String
  className : String
  disabled : Bool
  content : List (Slot α)
deriving DecidableEq

/-- The `Button` render function on its documented (typed) surface:
apply the declared default parameter values, then assemble the element
from `buttonClassName`, `isDisabled` and the composed child slots. -/
def renderButton {α : Type} (p : ButtonProps α) : ButtonElement α :=
  { type := p.type.getD "button",
    className := buttonClassName (p.variant.getD "primary") (p.size.getD "md")
      (p.fullWidth.getD false) (p.className.getD ""),
    disabled := isDisabled (p.disabled.getD false) (p.loading.getD false),
    content := composedContent (p.loading.getD false) (p.leftIcon.getD none)
      (p.rightIcon.getD none) p.children }

/-- The same props with every omitted field replaced by the default the
destructuring declares: variant `"primary"`, size `"md"`, fullWidth
`false`, loading `false`, disabled `false`, icons `null`, className
`""`, type `"button"`. -/
def explicitDefaults {α : Type} (p : ButtonProps α) : ButtonProps α :=
  { variant := some (p.variant.getD "primary"),
    size := some (p.size.getD "md"),
    fullWidth := some (p.fullWidth.getD false),
    loading := some (p.loading.getD false),
    disabled := some (p.disabled.getD false),
    leftIcon := some (p.leftIcon.getD none),
    rightIcon := some (p.rightIcon.getD none),
    children := p.children,
    className := some (p.className.getD ""),
    type := some (p.type.getD "button") }

/-! ### Tokenisation helpers

`splitSpaces` splits a character list at every space, keeping empty
pieces, exactly like JS `String.prototype.split(" ")`; a class string
has "no double spaces, no leading/trailing whitespace, no empty
tokens" iff every piece is nonempty. -/

/-- Split a character list at every space character, keeping empty
pieces (JS `split(" ")` semantics). -/
def splitSpaces : List Char → List (List Char)
  | [] => [[]]
  | c :: rest =>
    if c = ' ' then [] :: splitSpaces rest
    else
      match splitSpaces rest with
      | [] => [[c]]
      | t :: ts => (c :: t) :: ts

/-- The space-separated tokens of a string. -/
def strTokens (s : String) : List (List Char) := splitSpaces s.data

/-- A string is space-normalized when splitting on spaces yields no
empty token: no double space, no leading or trailing space, not empty. -/
def spaceNormalized (s : String) : Bool :=
  (strTokens s).all (fun t => !t.isEmpty)

/-! ### Untyped props model for the passthrough spread

The component receives one JS object; destructuring extracts the ten
named fields and collects the rest into `props`, which is spread onto
the `<button>` element after `type`, `className` and `disabled`. In
JSX a later occurrence of an attribute key overrides an earlier one,
so faithfulness of the spread order matters. We model the incoming
object as an association list of string keys to untyped values. -/

/-- An untyped JS prop value: a string, a boolean, `null`, or an
opaque renderable of type `α`. -/
inductive Value (α : Type) where
  | str (s : String) : Value α
  | bool (b : Bool) : Value α
  | null : Value α
  | content (c : α) : Value α
deriving DecidableEq, Repr

/-- A raw props object: keys to untyped values, unique keys assumed,
first match wins on lookup. -/
abbrev RawProps (α : Type) : Type := List (String × Value α)

/-- JS property access on the props object; `none` is `undefined`. -/
def getProp {α : Type} (m : RawProps α) (k : String) : Option (Value α) :=
  List.lookup k m

/-- Property access with a default parameter: the default applies
exactly when the property is absent. -/
def propValue {α : Type} (m : RawProps α) (k : String) (d : Value α) : Value α :=
  (getProp m k).getD d

/-- JS truthiness of a prop value (`""`, `false` and `null` are falsy). -/
def truthy {α : Type} : Value α → Bool
  | Value.str s => !(s == "")
  | Value.bool b => b
  | Value.null => false
  | Value.content _ => true

/-- How `Array.prototype.join` stringifies a truthy value (falsy ones
are removed by `filter(Boolean)` first; an opaque renderable
stringifies as a JS object does). -/
def valueJoinStr {α : Type} : Value α → String
  | Value.str s => s
  | Value.bool b => if b then "true" else "false"
  | Value.null => ""
  | Value.content _ => "[object Object]"

/-- `VARIANT_STYLES[variant]` when the destructured `variant` is an
arbitrary value: only a string key can hit the table (the string form
of a boolean, `null` or an object matches no table key). -/
def variantStylesV {α : Type} : Value α → Option String
  | Value.str s => variantStyles s
  | _ => none

/-- `SIZE_STYLES[size]` for an arbitrary destructured value. -/
def sizeStylesV {α : Type} : Value α → Option String
  | Value.str s => sizeStyles s
  | _ => none

/-- The `classes` array when the named props come from the raw object
(defaults `"primary"`, `"md"`, `false`, `""` as in the destructuring). -/
def rawClasses {α : Type} (m : RawProps α) : List (Option (Value α)) :=
  [some (Value.str BASE_STYLES),
   (variantStylesV (propValue m "variant" (Value.str "primary"))).map Value.str,
   (sizeStylesV (propValue m "size" (Value.str "md"))).map Value.str,
   some (Value.str (if truthy (propValue m "fullWidth" (Value.bool false))
     then "w-full" else "")),
   some (propValue m "className" (Value.str ""))]

/-- `classes.filter(Boolean).join(" ")` over raw values. -/
def rawButtonClassName {α : Type} (m : RawProps α) : String :=
  joinSpace ((rawClasses m).filterMap (fun o =>
    match o with
    | none => none
    | some v => if truthy v then some (valueJoinStr v) else none))

/-- `disabled || loading` on raw values: JS `||` yields the first
operand when it is truthy, otherwise the second. -/
def rawIsDisabled {α : Type} (m : RawProps α) : Value α :=
  if truthy (propValue m "disabled" (Value.bool false))
  then propValue m "disabled" (Value.bool false)
  else propValue m "loading" (Value.bool false)

/-- The ten destructured prop names; `...props` collects every other key. -/
def namedKeys : List String :=
  ["variant", "size", "fullWidth", "loading", "disabled",
   "leftIcon", "rightIcon", "children", "className", "type"]

/-- The rest object `...props`: the incoming object minus the named keys. -/
def restProps {α : Type} (m : RawProps α) : RawProps α :=
  m.filter (fun p => !(namedKeys.contains p.1))

/-- The attribute list written on the `<button>` element, in JSX order:
`type`, `className`, `disabled`, then the spread `{...props}` (the
forwarded ref is handled by the host framework outside the props
object and is not an attribute). -/
def elementAttrs {α : Type} (m : RawProps α) : List (String × Value α) :=
  [("type", propValue m "type" (Value.str "button")),
   ("className", Value.str (rawButtonClassName m)),
   ("disabled", rawIsDisabled m)] ++ restProps m

/-- The effective value of an attribute after JSX merging: the last
occurrence of the key wins. -/
def attrValue {α : Type} (attrs : List (String × Value α)) (k : String) :
    Option (Value α) :=
  List.lookup k attrs.reverse

/-! ### Bracket access with the prototype chain

`VARIANT_STYLES[variant]` on an object literal does not only consult
the literal's own keys: a name the literal does not define falls
through to `Object.prototype`, so e.g. `VARIANT_STYLES["constructor"]`
or `VARIANT_STYLES["toString"]` yields the inherited function (or, for
`"__proto__"`, the prototype object) — a truthy value, not
`undefined`. `variantStyles`/`sizeStyles` above deliberately model
only the own-key layer (exact on table keys, where own properties
shadow the prototype); the definitions below add the inherited layer
for the unknown-key behavior. The display text of an inherited
function is engine-specific, so an inherited hit is kept as a tagged
value rather than a string. -/

lemma lookup_mem {β : Type} (l : List (String × β)) (k : String) (v : β)
    (h : l.lookup k = some v) : (k, v) ∈ l := by
  induction l with
  | nil => simp [List.lookup] at h
  | cons p rest ih =>
    obtain ⟨a, b⟩ := p
    rw [List.lookup] at h
    split at h
    · next heq =>
      cases h
      have hk : k = a := by simpa using heq
      subst hk
      exact List.mem_cons_self _ _
    · right
      exact ih h

lemma variantStyles_ne_empty (v f : String) (h : variantStyles v = some f) :
    f ≠ "" := by
  have hm := lookup_mem _ _ _ h
  have hall : ∀ p ∈ VARIANT_STYLES, p.2 ≠ "" := by decide
  exact hall _ hm

lemma sizeStyles_ne_empty (s f : String) (h : sizeStyles s = some f) :
    f ≠ "" := by
  have hm := lookup_mem _ _ _ h
  have hall : ∀ p ∈ SIZE_STYLES, p.2 ≠ "" := by decide
  exact hall _ hm

/-- `filter(Boolean)` on the `classes` array keeps the base fragment,
keeps a present variant or size fragment (the table values are
nonempty), keeps `"w-full"` iff `fullWidth`, and keeps `className`
iff it is nonempty. -/
lemma filterBoolean_classList (o1 o2 : Option String) (fw : Bool) (cn : String)
    (h1 : ∀ x, o1 = some x → x ≠ "") (h2 : ∀ x, o2 = some x → x ≠ "") :
    filterBoolean [some BASE_STYLES, o1, o2,
        some (if fw then "w-full" else ""), some cn] =
      [BASE_STYLES] ++ o1.toList ++ o2.toList ++
        (if fw then ["w-full"] else []) ++ (if cn = "" then [] else [cn]) := by
  have hbase : BASE_STYLES ≠ "" := by decide
  rcases o1 with _ | f1 <;> rcases o2 with _ | f2 <;>
    by_cases hcn : cn = "" <;> cases fw <;>
      simp_all [filterBoolean, h1, h2]

/-- `buttonClassName` in closed form: the present fragments, in source
order, joined by `joinSpace`. -/
lemma buttonClassName_eq (v s : String) (fw : Bool) (cn : String) :
    buttonClassName v s fw cn =
      joinSpace ([BASE_STYLES] ++ (variantStyles v).toList ++
        (sizeStyles s).toList ++ (if fw then ["w-full"] else []) ++
        (if cn = "" then [] else [cn])) := by
  rw [buttonClassName, classList,
    filterBoolean_classList _ _ _ _ (variantStyles_ne_empty v)
      (sizeStyles_ne_empty s)]

lemma splitSpaces_ne_nil (l : List Char) : splitSpaces l ≠ [] := by
  induction l with
  | nil => simp [splitSpaces]
  | cons c rest ih =>
    rw [splitSpaces]
    split
    · simp
    · split
      · simp
      · simp

lemma splitSpaces_append (a b : List Char) :
    splitSpaces (a ++ ' ' :: b) = splitSpaces a ++ splitSpaces b := by
  induction a with
  | nil => simp [splitSpaces]
  | cons c rest ih =>
    by_cases hc : c = ' '
    · subst hc
      rw [List.cons_append, splitSpaces, if_pos rfl, ih]
      rw [splitSpaces, if_pos rfl]
      simp
    · rw [List.cons_append, splitSpaces, if_neg hc, ih]
      rw [splitSpaces, if_neg hc]
      rcases hr : splitSpaces rest with _ | ⟨t, ts⟩
      · exact absurd hr (splitSpaces_ne_nil rest)
      · simp

lemma strTokens_sep (a b : String) :
    strTokens (a ++ " " ++ b) = strTokens a ++ strTokens b := by
  have : (a ++ " " ++ b).data = a.data ++ ' ' :: b.data := by
    simp [String.data_append]
  rw [strTokens, this, splitSpaces_append]
  rfl

/-- Tokens of a nonempty join are the concatenation of the pieces'
tokens. -/
lemma strTokens_joinSpace (l : List String) (h : l ≠ []) :
    strTokens (joinSpace l) = (l.map strTokens).flatten := by
  induction l with
  | nil => exact absurd rfl h
  | cons s rest ih =>
    rcases rest with _ | ⟨t, ts⟩
    · simp [joinSpace]
    · have hj : joinSpace (s :: t :: ts) = s ++ " " ++ joinSpace (t :: ts) := rfl
      rw [hj, strTokens_sep, ih (List.cons_ne_nil t ts)]
      simp

lemma lookup_append_right {β : Type} (l1 l2 : List (String × β)) (k : String)
    (h : ∀ p ∈ l1, p.1 ≠ k) :
    List.lookup k (l1 ++ l2) = List.lookup k l2 := by
  induction l1 with
  | nil => simp
  | cons p rest ih =>
    obtain ⟨a, b⟩ := p
    have ha : a ≠ k := h (a, b) (List.mem_cons_self _ _)
    rw [List.cons_append, List.lookup]
    have : (k == a) = false := by
      simp [Ne.symm ha]
    rw [this]
    exact ih (fun q hq => h q (List.mem_cons_of_mem _ hq))

lemma restProps_keys {α : Type} (m : RawProps α) (p : String × Value α)
    (hp : p ∈ restProps m) : p.1 ∉ namedKeys := by
  rw [restProps, List.mem_filter] at hp
  have := hp.2
  simpa using this

/-! ### Claim theorems -/

/-- C1: for a configuration whose `variant` and `size` hit the lookup
tables and whose `extraStyleClasses` is nonempty, the resolved style
string is exactly the base fragment, the variant fragment, the size
fragment, the full-width fragment iff `fullWidth`, and
`extraStyleClasses` verbatim, in that fixed order, joined by single
spaces. -/
theorem style_string_fixed_order (v s : String) (fw : Bool) (cn : String)
    (vf sf : String) (hv : variantStyles v = some vf)
    (hs : sizeStyles s = some sf) (hcn : cn ≠ "") :
    buttonClassName v s fw cn =
      BASE_STYLES ++ " " ++ vf ++ " " ++ sf ++
        (if fw then " w-full" else "") ++ " " ++ cn := by
  rw [buttonClassName_eq, hv, hs]
  cases fw <;>
    · apply String.ext
      simp [joinSpace, String.data_append, hcn]

/-- Witness for C1 at the spec's own example:
`variant="danger", size="lg", fullWidth=true, extraStyleClasses="m-2"`. -/
theorem style_string_fixed_order_witness :
    buttonClassName "danger" "lg" true "m-2" =
      BASE_STYLES ++ " " ++
        "bg-red-600 text-white hover:bg-red-700 focus:ring-red-500 active:bg-red-800" ++
        " " ++ "px-6 py-3 text-lg gap-2.5" ++
        (if true then " w-full" else "") ++ " " ++ "m-2" :=
  style_string_fixed_order "danger" "lg" true "m-2"
    "bg-red-600 text-white hover:bg-red-700 focus:ring-red-500 active:bg-red-800"
    "px-6 py-3 text-lg gap-2.5" (by decide) (by decide) (by decide)

/-- C2: the effective disabled flag is `disabled OR loading`: false
exactly when both inputs are false, true in the other three cases. -/
theorem isDisabled_or_table : ∀ d l : Bool,
    isDisabled d l = (d || l) ∧
      (isDisabled d l = false ↔ d = false ∧ l = false) := by
  decide

/-- C3 as stated is false: with `loading = true` and no icons the
composed content still carries the children slot after the spinner,
so it is not the loading-indicator slot alone. -/
theorem loading_spinner_only_counterexample :
    composedContent true (none : Option Nat) (none : Option Nat) 0 ≠
      [Slot.spinner] := by
  decide

/-- C3 (amended): when `loading` is true the composed content is
`[loading-indicator, children]`; when `loading` is false it is
`[leftIcon?, children, rightIcon?]`. -/
theorem composed_slot_order (α : Type) (loading : Bool)
    (l r : Option α) (ch : α) :
    composedContent loading l r ch =
      if loading then [Slot.spinner, Slot.childrenSlot ch]
      else l.toList.map Slot.leftIcon ++ [Slot.childrenSlot ch] ++
        r.toList.map Slot.rightIcon := by
  cases loading <;> cases l <;> cases r <;> simp [composedContent]

/-- C4: while `loading` is true no icon slot appears anywhere in the
composed content, whether or not icons are supplied. -/
theorem loading_suppresses_icons (α : Type) (l r : Option α) (ch : α) :
    (composedContent true l r ch).all (fun s => !(isIconSlot s)) = true := by
  cases l <;> cases r <;> rfl

/-- C5: with `loading` false and both icons present, the composed
content is the left icon, then the children, then the right icon. -/
theorem icon_children_icon_order (α : Type) (lc rc ch : α) :
    composedContent false (some lc) (some rc) ch =
      [Slot.leftIcon lc, Slot.childrenSlot ch, Slot.rightIcon rc] := rfl

/-- C8: filling every omitted prop with the declared default —
variant `"primary"`, size `"md"`, fullWidth `false`, loading `false`,
disabled `false`, icons absent, className `""`, type `"button"` —
renders the identical element. -/
theorem omitted_props_default (α : Type) (p : ButtonProps α) :
    renderButton (explicitDefaults p) = renderButton p := rfl

/-- C9: style resolution is deterministic: two invocations with
identical `variant`, `size`, `fullWidth` and `extraStyleClasses`
produce the identical style string (and, being a pure function of
those inputs in this embedding, it touches no other state). -/
theorem style_resolution_deterministic (v1 v2 s1 s2 : String)
    (f1 f2 : Bool) (c1 c2 : String)
    (hv : v1 = v2) (hs : s1 = s2) (hf : f1 = f2) (hc : c1 = c2) :
    buttonClassName v1 s1 f1 c1 = buttonClassName v2 s2 f2 c2 := by
  rw [hv, hs, hf, hc]

/-- Witness for C9 at the spec's example configuration. -/
theorem style_resolution_deterministic_witness :
    buttonClassName "danger" "lg" true "m-2" =
      buttonClassName "danger" "lg" true "m-2" :=
  style_resolution_deterministic "danger" "danger" "lg" "lg" true true
    "m-2" "m-2" rfl rfl rfl rfl

set_option maxRecDepth 8192 in
/-- C6 as stated is false: `extraStyleClasses = " a"` is truthy, so
`filter(Boolean)` keeps it verbatim and `join(" ")` produces a double
space — the resolved string is not free of empty tokens for every
configuration. -/
theorem style_double_space_counterexample :
    spaceNormalized (buttonClassName "primary" "md" false " a") = false := by
  decide

/-- C6 (amended): for a known variant/size pair, and an
`extraStyleClasses` that is itself empty or space-normalized, the
resolved string splits into exactly the base tokens, the variant
tokens, the size tokens, the full-width token iff `fullWidth`, and the
extra tokens, in order, with no empty token — hence no double spaces
and no leading or trailing whitespace. -/
theorem style_tokens_normalized (v s : String) (fw : Bool) (cn : String)
    (vf sf : String) (hv : variantStyles v = some vf)
    (hs : sizeStyles s = some sf)
    (hcn : cn = "" ∨ spaceNormalized cn = true) :
    spaceNormalized (buttonClassName v s fw cn) = true ∧
    strTokens (buttonClassName v s fw cn) =
      strTokens BASE_STYLES ++ strTokens vf ++ strTokens sf ++
        (if fw then ["w-full".data] else []) ++
        (if cn = "" then [] else strTokens cn) := by
  have hvn : spaceNormalized vf = true := by
    have hall : ∀ p ∈ VARIANT_STYLES, spaceNormalized p.2 = true := by decide
    exact hall _ (lookup_mem _ _ _ hv)
  have hsn : spaceNormalized sf = true := by
    have hall : ∀ p ∈ SIZE_STYLES, spaceNormalized p.2 = true := by decide
    exact hall _ (lookup_mem _ _ _ hs)
  have hbn : spaceNormalized BASE_STYLES = true := by decide
  have hw : strTokens "w-full" = ["w-full".data] := by decide
  have hwn : spaceNormalized "w-full" = true := by decide
  have htok : strTokens (buttonClassName v s fw cn) =
      strTokens BASE_STYLES ++ strTokens vf ++ strTokens sf ++
        (if fw then ["w-full".data] else []) ++
        (if cn = "" then [] else strTokens cn) := by
    rw [buttonClassName_eq, hv, hs]
    cases fw <;> by_cases hc : cn = "" <;>
      · rw [strTokens_joinSpace _ (by simp [hc])]
        simp [hc, hw]
  refine ⟨?_, htok⟩
  rw [spaceNormalized, htok]
  rcases hcn with hc | hc
  · cases fw <;> simp_all [spaceNormalized]
  · cases fw <;> by_cases hc2 : cn = "" <;> simp_all [spaceNormalized]

/-- Witness for C6 at `variant="primary", size="md", fullWidth=true,
extraStyleClasses="m-2"`. -/
theorem style_tokens_normalized_witness :
    spaceNormalized (buttonClassName "primary" "md" true "m-2") = true :=
  (style_tokens_normalized "primary" "md" true "m-2"
    "bg-blue-600 text-white hover:bg-blue-700 focus:ring-blue-500 active:bg-blue-800"
    "px-4 py-2 text-base gap-2" (by decide) (by decide)
    (Or.inr (by decide))).1

/-- Merging the element attributes for a destructured key never leaves
the spread region: the rest object cannot contain a named key, so the
last occurrence of the key is the explicitly written one. -/
lemma attrValue_named {α : Type} (m : RawProps α) (k : String)
    (hk : k ∈ namedKeys) :
    attrValue (elementAttrs m) k =
      List.lookup k ([("disabled", rawIsDisabled m),
        ("className", Value.str (rawButtonClassName m)),
        ("type", propValue m "type" (Value.str "button"))] :
          List (String × Value α)) := by
  rw [attrValue, elementAttrs, List.reverse_append,
    lookup_append_right _ _ _
      (fun p hp hpk => restProps_keys m p (List.mem_reverse.mp hp) (hpk ▸ hk))]
  simp

lemma attr_type_eq {α : Type} (m : RawProps α) :
    attrValue (elementAttrs m) "type" =
      some (propValue m "type" (Value.str "button")) := by
  rw [attrValue_named m "type" (by decide)]
  rfl

lemma attr_className_eq {α : Type} (m : RawProps α) :
    attrValue (elementAttrs m) "className" =
      some (Value.str (rawButtonClassName m)) := by
  rw [attrValue_named m "className" (by decide)]
  rfl

lemma attr_disabled_eq {α : Type} (m : RawProps α) :
    attrValue (elementAttrs m) "disabled" = some (rawIsDisabled m) := by
  rw [attrValue_named m "disabled" (by decide)]
  rfl

/-- C10: the passthrough spread can never override the computed
attributes. The effective `type`, `className` and `disabled`
attributes are exactly the computed ones, and two props objects that
agree on the ten destructured keys — whatever their other entries —
yield identical effective values for all three. -/
theorem passthrough_no_override (α : Type) (m1 m2 : RawProps α)
    (h : ∀ k ∈ namedKeys, getProp m1 k = getProp m2 k) :
    (attrValue (elementAttrs m1) "type" =
        some (propValue m1 "type" (Value.str "button")) ∧
      attrValue (elementAttrs m1) "className" =
        some (Value.str (rawButtonClassName m1)) ∧
      attrValue (elementAttrs m1) "disabled" = some (rawIsDisabled m1)) ∧
    attrValue (elementAttrs m1) "type" = attrValue (elementAttrs m2) "type" ∧
    attrValue (elementAttrs m1) "className" =
      attrValue (elementAttrs m2) "className" ∧
    attrValue (elementAttrs m1) "disabled" =
      attrValue (elementAttrs m2) "disabled" := by
  have hv := h "variant" (by decide)
  have hsz := h "size" (by decide)
  have hfw := h "fullWidth" (by decide)
  have hld := h "loading" (by decide)
  have hdis := h "disabled" (by decide)
  have hcl := h "className" (by decide)
  have hty := h "type" (by decide)
  have hbcn : rawButtonClassName m1 = rawButtonClassName m2 := by
    simp only [rawButtonClassName, rawClasses, propValue]
    simp only [hv, hsz, hfw, hcl]
  have hdd : rawIsDisabled m1 = rawIsDisabled m2 := by
    simp only [rawIsDisabled, propValue]
    simp only [hdis, hld]
  have htt : propValue m1 "type" (Value.str "button") =
      propValue m2 "type" (Value.str "button") := by
    simp only [propValue]
    rw [hty]
  refine ⟨⟨attr_type_eq m1, attr_className_eq m1, attr_disabled_eq m1⟩,
    ?_, ?_, ?_⟩
  · rw [attr_type_eq m1, attr_type_eq m2, htt]
  · rw [attr_className_eq m1, attr_className_eq m2, hbcn]
  · rw [attr_disabled_eq m1, attr_disabled_eq m2, hdd]

/-- Witness for C10: two props objects with the same `variant` but
different passthrough entries produce the same effective `type`. -/
theorem passthrough_no_override_witness :
    attrValue (elementAttrs
        ([("variant", Value.str "danger"), ("data-x", Value.str "1")] :
          RawProps Nat)) "type" =
      attrValue (elementAttrs
        ([("variant", Value.str "danger"), ("aria-label", Value.str "ok")] :
          RawProps Nat)) "type" :=
  (passthrough_no_override Nat
    [("variant", Value.str "danger"), ("data-x", Value.str "1")]
    [("variant", Value.str "danger"), ("aria-label", Value.str "ok")]
    (by decide)).2.1

end Button

